import Mathlib

/-!
Verification development for the SQUID-school Qiskit chemistry notebook
(chemistry/.ipynb_checkpoints/SQUIDnotebookIgor-checkpoint.ipynb).

The notebook is a linear script of library invocations: it builds a fermionic
Hamiltonian for H2 from PySCF integrals, maps it to a qubit Hamiltonian,
assembles a Hartree-Fock initial state, a UCCSD variational form and a COBYLA
optimizer, runs VQE on a backend, and finally sweeps a trotterized time
evolution recording statevectors.  We embed the notebook-owned glue logic
directly; behaviour that the notebook delegates to the external framework
(qubit counts produced by the mapping, backend determinism, trotterized
evolution) is modelled from the specification, as indicated on each
doc comment of each definition.
-/

/-- Mapping choices the notebook offers (cell-9 comment:
jordan_wigner, parity or bravyi_kitaev). -/
inductive MapType
  | jordan_wigner
  | parity
  | bravyi_kitaev
  deriving DecidableEq

/-- The string the notebook stores in map_type for each mapping choice
(cell-9 assigns one of the three literals). -/
def MapType.str : MapType → String
  | .jordan_wigner => "jordan_wigner"
  | .parity => "parity"
  | .bravyi_kitaev => "bravyi_kitaev"

/-- Cell-13: qubit_reduction is True exactly if map_type equals the parity literal. -/
def qubit_reduction (map_type : MapType) : Bool :=
  map_type.str == "parity"

/-- Cell-7: num_spin_orbitals = molecule.num_orbitals * 2. -/
def num_spin_orbitals (num_orbitals : ℕ) : ℕ :=
  num_orbitals * 2

/-- The data of the qubit operator that the notebook-level logic observes:
its qubit count (qubitOp.num_qubits) and whether the two-qubit reduction was
applied to it. -/
structure QubitOp where
  num_qubits : ℕ
  reduced : Bool
  deriving DecidableEq

/-- Modelled from the spec: FermionicOperator.mapping wraps the integrals into
a qubit operator whose qubit count equals the number of spin orbitals
(the Operator Builder outputs a QubitHamiltonian with fixed qubit count equal
to the expected value derived from orbital count).  The numerical threshold
argument of cell-13 does not affect the qubit count and is not tracked. -/
def ferOp_mapping (nso : ℕ) (mt : MapType) : QubitOp :=
  ⟨nso, false⟩

/-- Modelled from the spec: the two-qubit reduction permitted by the parity
mapping removes two qubits given the particle count. -/
def two_qubit_reduced_operator (op : QubitOp) (num_particles : ℕ) : QubitOp :=
  ⟨op.num_qubits - 2, true⟩

/-- Cell-13 of the notebook: map the fermionic Hamiltonian, then apply the
two-qubit reduction exactly when qubit_reduction holds.  (qubitOp.chop(1e-10)
only drops small Pauli terms and does not change the qubit count.) -/
def buildQubitOp (nso num_particles : ℕ) (mt : MapType) : QubitOp :=
  if qubit_reduction mt then
    two_qubit_reduced_operator (ferOp_mapping nso mt) num_particles
  else
    ferOp_mapping nso mt

/-- The constructor arguments of the HartreeFock initial state (cell-18):
HartreeFock(qubitOp.num_qubits, num_spin_orbitals, num_particles, map_type,
qubit_reduction). -/
structure HartreeFockState where
  num_qubits : ℕ
  num_orbitals : ℕ
  num_particles : ℕ
  qubit_mapping : MapType
  two_qubit_reduction : Bool
  deriving DecidableEq

/-- Cell-18: HF_state = HartreeFock(qubitOp.num_qubits, num_spin_orbitals,
num_particles, map_type, qubit_reduction). -/
def mkHartreeFock (qubitOp : QubitOp) (nso np : ℕ) (mt : MapType) :
    HartreeFockState :=
  ⟨qubitOp.num_qubits, nso, np, mt, qubit_reduction mt⟩

/-- The constructor arguments of the UCCSD variational form (cell-20). -/
structure UCCSDForm where
  num_qubits : ℕ
  depth : ℕ
  num_orbitals : ℕ
  num_particles : ℕ
  initial_state : HartreeFockState
  qubit_mapping : MapType
  two_qubit_reduction : Bool
  num_time_slices : ℕ
  deriving DecidableEq

/-- Cell-20: var_form = UCCSD(qubitOp.num_qubits, depth=1,
num_orbitals=num_spin_orbitals, num_particles=num_particles, ...,
initial_state=HF_state, qubit_mapping=map_type,
two_qubit_reduction=qubit_reduction, num_time_slices=1). -/
def mkUCCSD (qubitOp : QubitOp) (nso np : ℕ) (hf : HartreeFockState)
    (mt : MapType) : UCCSDForm :=
  ⟨qubitOp.num_qubits, 1, nso, np, hf, mt, qubit_reduction mt, 1⟩

/-- The solver result the notebook reads (cell-31): eigvals[0] and
opt_params. -/
structure ResultRecord where
  eigval : ℝ
  opt_params : List ℝ

/-- What cell-31 reports from a solver result: the computed (electronic)
ground state energy results.eigvals[0], the total ground state energy
results.eigvals[0] + nuclear_repulsion_energy, and the optimized
parameters results.opt_params. -/
structure RunReport where
  computed_energy : ℝ
  total_energy : ℝ
  parameters : List ℝ

/-- Cell-31 of the notebook: build the printed report from the single solver
result and the nuclear repulsion energy of the molecule. -/
def reportResults (results : ResultRecord) (nuclear_repulsion_energy : ℝ) :
    RunReport :=
  ⟨results.eigval, results.eigval + nuclear_repulsion_energy,
   results.opt_params⟩

/-- Python names the notebook reads and writes, one constructor per name
occurring in the code cells (imports included). -/
inductive PyName
  | np | plt | Aer | IBMQ | QuantumRegister | least_busy
  | Operator | QuantumInstance | VQE | ExactEigensolver
  | COBYLA | SPSA | P_BFGS | RY | RYRZ
  | FermionicOperator | PySCFDriver | UnitsType | UCCSD | HartreeFock
  | driver | molecule | nuclear_repulsion_energy | num_particles
  | num_spin_orbitals | map_type | h1 | h2 | ferOp | qubit_reduction
  | qubitOp | max_eval | optimizer | HF_state | var_form | qasm
  | qasm_simulator | lb_device | quantum_instance | device | properties
  | coupling_map | noise | noise_model | basis_gates | shots | qubit_mapper
  | sv_mode | num_qubits | sv_simulator | vqe | results | circuit
  | evolution_time | num_time_slices | qr | initial_circuit
  | evolution_circuit | max_time | statevector_of_t | result | t
  deriving DecidableEq

/-- Observable effects of the notebook statements: console printing, the
credential write of IBMQ.save_account, network calls of the IBMQ client,
matplotlib display, the VQE solver stage, and the time-evolution stage. -/
inductive Effect
  | consolePrint
  | diskWrite
  | networkCall
  | plotDisplay
  | solverRun
  | timeEvolution
  deriving DecidableEq

/-- One top-level Python statement of the notebook, abstracted to the names
it reads, the names it (re)binds, and the effects it performs when its name
lookups succeed. -/
structure Stmt where
  reads : List PyName
  writes : List PyName
  effects : List Effect

/-- The first name a statement reads that is not bound in the environment
(Python raises NameError at the first unresolved name). -/
def undefinedRead (env : List PyName) (s : Stmt) : Option PyName :=
  s.reads.find? (fun n => !(env.contains n))

/-- Sequential execution of the notebook statements: each statement first
resolves its read names (stopping the whole run with the offending name on
failure, as a Python NameError does), then performs its effects and binds
its written names.  Returns the effects that actually happened and either
the final environment or the name whose lookup failed. -/
def runTrace (env : List PyName) :
    List Stmt → List Effect × Except PyName (List PyName)
  | [] => ([], Except.ok env)
  | s :: rest =>
    match undefinedRead env s with
    | some n => ([], Except.error n)
    | none =>
      let r := runTrace (s.writes ++ env) rest
      (s.effects ++ r.1, r.2)

/-- Cells 5 to 22 of the notebook, statement by statement: imports, driver
and molecule setup with its three prints, mapping choice, fermionic operator,
qubit operator construction with its print, optimizer, Hartree-Fock state,
UCCSD variational form, and the qasm flag assignment (cell-23 and cell-30
are entirely commented out and contribute no statements). -/
def preludeStmts : List Stmt :=
  [⟨[], [.np, .plt, .Aer, .IBMQ, .QuantumRegister, .least_busy, .Operator,
        .QuantumInstance, .VQE, .ExactEigensolver, .COBYLA, .SPSA, .P_BFGS,
        .RY, .RYRZ, .FermionicOperator, .PySCFDriver, .UnitsType, .UCCSD,
        .HartreeFock], []⟩,
   ⟨[.PySCFDriver, .UnitsType], [.driver], []⟩,
   ⟨[.driver], [.molecule], []⟩,
   ⟨[.molecule], [.nuclear_repulsion_energy], []⟩,
   ⟨[.molecule], [.num_particles], []⟩,
   ⟨[.molecule], [.num_spin_orbitals], []⟩,
   ⟨[.molecule], [], [.consolePrint]⟩,
   ⟨[.num_particles], [], [.consolePrint]⟩,
   ⟨[.num_spin_orbitals], [], [.consolePrint]⟩,
   ⟨[], [.map_type], []⟩,
   ⟨[.molecule], [.h1], []⟩,
   ⟨[.molecule], [.h2], []⟩,
   ⟨[.FermionicOperator, .h1, .h2], [.ferOp], []⟩,
   ⟨[.map_type], [.qubit_reduction], []⟩,
   ⟨[.ferOp, .map_type], [.qubitOp], []⟩,
   ⟨[.qubitOp, .qubit_reduction, .num_particles], [.qubitOp], []⟩,
   ⟨[.qubitOp], [], []⟩,
   ⟨[.qubitOp], [], [.consolePrint]⟩,
   ⟨[.qubitOp], [], []⟩,
   ⟨[], [.max_eval], []⟩,
   ⟨[.COBYLA, .max_eval], [.optimizer], []⟩,
   ⟨[.HartreeFock, .qubitOp, .num_spin_orbitals, .num_particles, .map_type,
     .qubit_reduction], [.HF_state], []⟩,
   ⟨[.UCCSD, .qubitOp, .num_spin_orbitals, .num_particles, .HF_state,
     .map_type, .qubit_reduction], [.var_form], []⟩,
   ⟨[], [.qasm], []⟩]

/-- Cell-24, the branch taken when qasm is true, statement by statement.
The credential write IBMQ.save_account comes second; the statement binding
noise_model reads the name noise, which no statement of the notebook ever
binds (the import of a noise module only exists inside the commented-out
cell-23), and the later QuantumInstance call reads the equally unbound name
qubit_mapper. -/
def qasmBranchStmts : List Stmt :=
  [⟨[.Aer], [.qasm_simulator], []⟩,
   ⟨[.IBMQ], [], [.diskWrite]⟩,
   ⟨[.IBMQ], [], [.networkCall]⟩,
   ⟨[.least_busy, .IBMQ], [.lb_device], [.networkCall]⟩,
   ⟨[.lb_device], [], [.consolePrint]⟩,
   ⟨[.QuantumInstance, .lb_device], [.quantum_instance], []⟩,
   ⟨[.lb_device], [.device], []⟩,
   ⟨[.device], [.properties], []⟩,
   ⟨[.device], [.coupling_map], []⟩,
   ⟨[.noise, .properties], [.noise_model], []⟩,
   ⟨[.noise_model], [.basis_gates], []⟩,
   ⟨[], [.shots], []⟩,
   ⟨[.QuantumInstance, .qasm_simulator, .shots, .basis_gates, .coupling_map,
     .qubit_mapper, .noise_model], [.quantum_instance], []⟩,
   ⟨[], [.sv_mode], []⟩,
   ⟨[.qubitOp], [.num_qubits], []⟩]

/-- Cell-26, the branch taken when qasm is false: the exact statevector
backend setup. -/
def svBranchStmts : List Stmt :=
  [⟨[.Aer], [.sv_simulator], []⟩,
   ⟨[.QuantumInstance, .sv_simulator], [.quantum_instance], []⟩,
   ⟨[], [.sv_mode], []⟩,
   ⟨[.qubitOp], [.num_qubits], []⟩]

/-- Cells 28 to 39: VQE setup, the solver run with its three result prints,
the circuit drawing, and the time-evolution sweep with its plots. -/
def tailStmts : List Stmt :=
  [⟨[.VQE, .qubitOp, .var_form, .optimizer], [.vqe], []⟩,
   ⟨[.vqe, .quantum_instance], [.results], [.solverRun]⟩,
   ⟨[.results], [], [.consolePrint]⟩,
   ⟨[.results, .nuclear_repulsion_energy], [], [.consolePrint]⟩,
   ⟨[.results], [], [.consolePrint]⟩,
   ⟨[.vqe, .sv_mode, .results], [.circuit], []⟩,
   ⟨[.circuit], [], [.plotDisplay]⟩,
   ⟨[], [.evolution_time], []⟩,
   ⟨[], [.num_time_slices], []⟩,
   ⟨[.QuantumRegister, .num_qubits], [.qr], []⟩,
   ⟨[.HF_state], [.initial_circuit], []⟩,
   ⟨[.qubitOp, .initial_circuit, .evolution_time, .num_time_slices],
    [.evolution_circuit], [.timeEvolution]⟩,
   ⟨[.evolution_circuit], [], [.plotDisplay]⟩,
   ⟨[.evolution_time], [.max_time], []⟩,
   ⟨[.np, .max_time, .num_qubits], [.statevector_of_t], []⟩,
   ⟨[.qubitOp, .initial_circuit, .num_time_slices], [.evolution_circuit],
    [.timeEvolution]⟩,
   ⟨[.quantum_instance, .evolution_circuit], [.result], []⟩,
   ⟨[.np, .result, .statevector_of_t], [], []⟩,
   ⟨[.np, .max_time], [.t], []⟩,
   ⟨[.plt, .t, .statevector_of_t], [], [.plotDisplay]⟩,
   ⟨[.plt, .np, .t, .statevector_of_t], [], [.plotDisplay]⟩]

/-- Cell-22 of the notebook hardcodes qasm = True. -/
def qasmFlag : Bool := true

/-- The notebook as a sequential program, parameterized by the value of the
qasm flag that guards cell-24 (if qasm) and cell-26 (if not qasm). -/
def notebookProgram (qasm : Bool) : List Stmt :=
  preludeStmts ++
    (if qasm then qasmBranchStmts else []) ++
    (if qasm then [] else svBranchStmts) ++
    tailStmts

/-- Running the notebook from an empty environment: the effects that happen
and how the run ends. -/
def notebookTrace (qasm : Bool) :
    List Effect × Except PyName (List PyName) :=
  runTrace [] (notebookProgram qasm)

/-- The two backend modes the notebook can set up: the exact statevector
simulator of cell-26 and the shot-sampled qasm simulator of cell-24. -/
inductive BackendMode
  | statevector
  | qasmSampled
  deriving DecidableEq

/-- Circuits handed to the backend, as a list of gates acting on the
four-dimensional state space of the two-qubit run. -/
def Circuit : Type :=
  List (Matrix (Fin 4) (Fin 4) ℂ)

/-- The computational basis state with amplitude one at index k. -/
def basisState (d : ℕ) (k : Fin d) : Fin d → ℂ :=
  fun i => if i = k then 1 else 0

/-- Modelled from the spec: exact statevector execution is the deterministic
simulation of the circuit, a function of the circuit alone (the uniform
execute contract of the backend abstraction, in exact statevector mode). -/
noncomputable def exactExecute (c : Circuit) : Fin 4 → ℂ :=
  (c.foldl (fun A g => A * g) 1).mulVec (basisState 4 0)

/-- A backend execution result: statevector amplitudes in exact mode,
measurement counts in shot-sampled mode. -/
def ExecResult : Type :=
  (Fin 4 → ℂ) ⊕ (Fin 4 → ℕ)

/-- Modelled from the spec: the execute contract of the selected backend.
In exact statevector mode the result is determined by the circuit alone;
in shot-sampled mode the measurement counts additionally depend on the
sampling randomness, abstracted as a seed. -/
noncomputable def execBackend (mode : BackendMode) (seed : ℕ) (c : Circuit) :
    ExecResult :=
  match mode with
  | .statevector => Sum.inl (exactExecute c)
  | .qasmSampled => Sum.inr (fun i => (seed + i.val + c.length) % 10000)

/-- Modelled from the spec: the Solver Runner is a black-box iterative loop
that, given the assembled inputs, queries the backend through its execute
function and returns a ResultRecord; the notebook then reports from that
record and the nuclear repulsion energy (cell-31).  The solver is taken as
an arbitrary function of the execute function it is handed. -/
noncomputable def runPipeline (mode : BackendMode) (seed : ℕ)
    (solver : (Circuit → ExecResult) → ResultRecord)
    (nuclear_repulsion_energy : ℝ) : RunReport :=
  reportResults (solver (execBackend mode seed)) nuclear_repulsion_energy

/-- Modelled from the spec: the elementary factor of the product-formula
(Trotter) expansion, the evolution exp(-i angle P) of one weighted Pauli
term P of the qubit Hamiltonian, written without the matrix exponential as
cos(angle) I - i sin(angle) P. -/
noncomputable def pauliRotation (d : ℕ) (angle : ℝ)
    (P : Matrix (Fin d) (Fin d) ℂ) : Matrix (Fin d) (Fin d) ℂ :=
  ((Real.cos angle : ℝ) : ℂ) • (1 : Matrix (Fin d) (Fin d) ℂ) -
    (Complex.I * ((Real.sin angle : ℝ) : ℂ)) • P

/-- Modelled from the spec: one Trotter slice of duration theta applies the
rotation of every weighted term (coefficient, Pauli matrix) of the qubit
Hamiltonian in sequence. -/
noncomputable def trotterSlice (d : ℕ)
    (terms : List (ℝ × Matrix (Fin d) (Fin d) ℂ)) (theta : ℝ) :
    Matrix (Fin d) (Fin d) ℂ :=
  terms.foldl (fun A cp => A * pauliRotation d (cp.1 * theta) cp.2) 1

/-- Modelled from the spec: qubitOp.evolve with expansion_mode trotter and
num_time_slices slices splits evo_time into num_time_slices equal slices and
applies the slice circuit that many times (cell-37 and the cell-39 loop). -/
noncomputable def trotterEvolve (d : ℕ)
    (terms : List (ℝ × Matrix (Fin d) (Fin d) ℂ)) (evo_time : ℝ)
    (num_slices : ℕ) : Matrix (Fin d) (Fin d) ℂ :=
  trotterSlice d terms (evo_time / (num_slices : ℝ)) ^ num_slices

/-- The statevector obtained by executing the evolution circuit for a given
evolution time on the initial state v. -/
noncomputable def evolveState (d : ℕ)
    (terms : List (ℝ × Matrix (Fin d) (Fin d) ℂ)) (evo_time : ℝ)
    (num_slices : ℕ) (v : Fin d → ℂ) : Fin d → ℂ :=
  (trotterEvolve d terms evo_time num_slices).mulVec v

/-- Cell-39 allocates statevector_of_t with np.zeros, a float64 array;
assigning a complex value into it keeps only the real part (numpy casts
complex128 to float64 by dropping the imaginary part). -/
def storeRow (d : ℕ) (v : Fin d → ℂ) : Fin d → ℝ :=
  fun i => (v i).re

/-- The row the cell-39 loop records for integer time index evo_t: the
executed statevector of the evolution circuit for that time, stored through
the float64 array. -/
noncomputable def recordedRow (d : ℕ)
    (terms : List (ℝ × Matrix (Fin d) (Fin d) ℂ)) (num_slices : ℕ)
    (v : Fin d → ℂ) (evo_t : ℕ) : Fin d → ℝ :=
  storeRow d (evolveState d terms (evo_t : ℝ) num_slices v)

/-- The Pauli word Z tensor Z on two qubits, a concrete diagonal term a
two-qubit Hamiltonian can contain. -/
def pauliZZ : Matrix (Fin 4) (Fin 4) ℂ :=
  Matrix.diagonal ![1, -1, -1, 1]

/-- Claim C2: the qubit-reduction flag is true exactly for the parity
mapping, and the two-qubit-reduced operator is applied to the qubit
Hamiltonian exactly in that case, for every mapping choice. -/
theorem qubit_reduction_iff_parity (nso np : ℕ) (mt : MapType) :
    (qubit_reduction mt = true ↔ mt = MapType.parity) ∧
      (buildQubitOp nso np mt).reduced = qubit_reduction mt := by
  cases mt <;>
    simp [qubit_reduction, buildQubitOp, two_qubit_reduced_operator,
      ferOp_mapping, MapType.str]

/-- Claim C3: for every mapping choice the qubit count of the qubit
Hamiltonian equals the number of spin orbitals (twice the molecular orbital
count), except that under the parity mapping, where the reduction is
applied, it is that value minus two. -/
theorem qubit_count_from_orbitals (norb np : ℕ) (mt : MapType) :
    (buildQubitOp (num_spin_orbitals norb) np mt).num_qubits =
      if mt = MapType.parity then num_spin_orbitals norb - 2
      else num_spin_orbitals norb := by
  cases mt <;>
    simp [buildQubitOp, qubit_reduction, MapType.str, two_qubit_reduced_operator,
      ferOp_mapping]

/-- Claim C4: the Hartree-Fock initial state and the UCCSD variational form
are both constructed on qubitOp.num_qubits, so the initial state, the ansatz
and the Hamiltonian agree on qubit count in every run. -/
theorem hamiltonian_ansatz_initial_state_qubit_counts_agree
    (qop : QubitOp) (nso np : ℕ) (mt : MapType) :
    (mkHartreeFock qop nso np mt).num_qubits = qop.num_qubits ∧
      (mkUCCSD qop nso np (mkHartreeFock qop nso np mt) mt).num_qubits =
        qop.num_qubits ∧
      (mkUCCSD qop nso np (mkHartreeFock qop nso np mt) mt).initial_state.num_qubits =
        (mkUCCSD qop nso np (mkHartreeFock qop nso np mt) mt).num_qubits :=
  ⟨rfl, rfl, rfl⟩

/-- Claim C8: the reported total ground state energy is the optimized
electronic energy of the solver result plus the nuclear repulsion energy,
the reported energy and parameters come from that same single result, and in
either run configuration exactly one notebook statement binds the results
name (the record is produced once and no later statement rebinds it). -/
theorem total_energy_and_result_record (r : ResultRecord) (nre : ℝ) :
    (reportResults r nre).total_energy =
        (reportResults r nre).computed_energy + nre ∧
      (reportResults r nre).computed_energy = r.eigval ∧
      (reportResults r nre).parameters = r.opt_params ∧
      ((notebookProgram true).filter
          (fun s => s.writes.contains PyName.results)).length = 1 ∧
      ((notebookProgram false).filter
          (fun s => s.writes.contains PyName.results)).length = 1 := by
  refine ⟨rfl, rfl, rfl, ?_, ?_⟩ <;> decide

/-- Claim C5: with the exact statevector backend, the run is deterministic:
whatever black-box solver loop the framework implements, two runs of the
pipeline with identical configuration and different sampling randomness
produce identical reports (the exact execute function does not consume the
randomness). -/
theorem exact_mode_runs_are_identical
    (solver : (Circuit → ExecResult) → ResultRecord)
    (nre : ℝ) (seed1 seed2 : ℕ) :
    runPipeline BackendMode.statevector seed1 solver nre =
      runPipeline BackendMode.statevector seed2 solver nre :=
  rfl

/-- Claim C1: under the hardcoded qasm = True configuration the run performs
a disk write (IBMQ.save_account persists the embedded credential) before it
fails, while the statevector configuration performs no disk write, so the
stated no-persistence property does not hold of the code as configured. -/
theorem qasm_run_persists_credential :
    Effect.diskWrite ∈ (notebookTrace qasmFlag).1 ∧
      Effect.diskWrite ∉ (notebookTrace false).1 := by
  refine ⟨?_, ?_⟩ <;> decide

/-- Claim C10: with the hardcoded qasm = True, the statevector branch never
executes (nothing binds sv_simulator), the executed branch reads the names
noise and qubit_mapper that no statement of the notebook ever binds, the run
stops with the unresolved name noise during backend setup, and neither the
solver stage nor the time-evolution stage is ever reached. -/
theorem qasm_branch_fails_before_solver :
    (notebookTrace qasmFlag).2 = Except.error PyName.noise ∧
      Effect.solverRun ∉ (notebookTrace qasmFlag).1 ∧
      Effect.timeEvolution ∉ (notebookTrace qasmFlag).1 ∧
      (∀ s ∈ notebookProgram qasmFlag, PyName.sv_simulator ∉ s.writes) ∧
      (∃ s ∈ notebookProgram qasmFlag, PyName.noise ∈ s.reads) ∧
      (∃ s ∈ notebookProgram qasmFlag, PyName.qubit_mapper ∈ s.reads) ∧
      (∀ s ∈ notebookProgram qasmFlag,
        PyName.noise ∉ s.writes ∧ PyName.qubit_mapper ∉ s.writes) := by
  refine ⟨rfl, ?_, ?_, ?_, ?_, ?_, ?_⟩ <;> decide

/-- A Pauli rotation by angle zero is the identity matrix. -/
theorem pauliRotation_zero (d : ℕ) (P : Matrix (Fin d) (Fin d) ℂ) :
    pauliRotation d 0 P = 1 := by
  simp [pauliRotation]

/-- A Trotter slice of duration zero is the identity matrix. -/
theorem trotterSlice_zero (d : ℕ)
    (terms : List (ℝ × Matrix (Fin d) (Fin d) ℂ)) :
    trotterSlice d terms 0 = 1 := by
  unfold trotterSlice
  have key : ∀ (l : List (ℝ × Matrix (Fin d) (Fin d) ℂ))
      (A : Matrix (Fin d) (Fin d) ℂ),
      l.foldl (fun a cp => a * pauliRotation d (cp.1 * 0) cp.2) A = A := by
    intro l
    induction l with
    | nil => intro A; rfl
    | cons x xs ih =>
      intro A
      rw [List.foldl_cons, mul_zero, pauliRotation_zero, mul_one]
      exact ih A
  exact key terms 1

/-- Claim C6: executing the evolution circuit with evo_time = 0 is the
identity on every initial state, so the row the cell-39 sweep records for
time index 0 is exactly the row recorded for the unevolved reference
statevector. -/
theorem time_zero_evolution_is_identity (d : ℕ)
    (terms : List (ℝ × Matrix (Fin d) (Fin d) ℂ)) (m : ℕ) (v : Fin d → ℂ) :
    evolveState d terms 0 m v = v ∧
      recordedRow d terms m v 0 = storeRow d v := by
  have h : evolveState d terms 0 m v = v := by
    unfold evolveState trotterEvolve
    rw [zero_div, trotterSlice_zero, one_pow, Matrix.one_mulVec]
  refine ⟨h, ?_⟩
  unfold recordedRow
  rw [Nat.cast_zero, h]

/-- A Pauli rotation of a diagonal Pauli word is the diagonal matrix of the
pointwise rotated phases. -/
theorem pauliRotation_diagonal (d : ℕ) (angle : ℝ) (dv : Fin d → ℂ) :
    pauliRotation d angle (Matrix.diagonal dv) =
      Matrix.diagonal (fun i =>
        ((Real.cos angle : ℝ) : ℂ) -
          Complex.I * ((Real.sin angle : ℝ) : ℂ) * dv i) := by
  ext i j
  by_cases h : i = j
  · subst h
    simp [pauliRotation, Matrix.sub_apply, Matrix.smul_apply,
      Matrix.diagonal_apply_eq, Matrix.one_apply_eq]
  · simp [pauliRotation, Matrix.sub_apply, Matrix.smul_apply,
      Matrix.diagonal_apply_ne _ h, Matrix.one_apply_ne h]

/-- The first amplitude of the trotterized evolution of the basis state
through the single diagonal term Z tensor Z with coefficient one, evolution
time one and ten time slices: the accumulated phase exp(-i). -/
theorem evolved_amplitude_zz :
    evolveState 4 [(1, pauliZZ)] 1 10 (basisState 4 0) 0 =
      Complex.exp (((-1 : ℝ) : ℂ) * Complex.I) := by
  have hθ : (1 : ℝ) / ((10 : ℕ) : ℝ) = 1 / 10 := by norm_num
  have hslice : trotterSlice 4 [(1, pauliZZ)] (1 / 10) =
      pauliRotation 4 (1 / 10) pauliZZ := by
    unfold trotterSlice
    rw [List.foldl_cons, List.foldl_nil, one_mul, one_mul]
  have hfirst : (↑(Real.cos (1 / 10)) - Complex.I * ↑(Real.sin (1 / 10)) : ℂ) =
      Complex.exp (((-(1 / 10) : ℝ) : ℂ) * Complex.I) := by
    rw [Complex.exp_mul_I, ← Complex.ofReal_cos, ← Complex.ofReal_sin,
      Real.cos_neg, Real.sin_neg]
    push_cast
    ring
  unfold evolveState trotterEvolve
  rw [hθ, hslice]
  unfold pauliZZ
  rw [pauliRotation_diagonal, Matrix.diagonal_pow, Matrix.mulVec_diagonal]
  have hb : basisState 4 0 0 = 1 := by simp [basisState]
  rw [hb, mul_one, Pi.pow_apply]
  have hdv : (![1, -1, -1, 1] : Fin 4 → ℂ) 0 = 1 := rfl
  rw [hdv, mul_one, hfirst, ← Complex.exp_nat_mul]
  congr 1
  push_cast
  ring

/-- Claim C7 counterexample: in the recorded sweep row for time index 1 of
the concrete two-qubit Hamiltonian consisting of the single term Z tensor Z
with unit coefficient, the stored first entry is not the complex amplitude
returned by executing the evolution circuit: the executed amplitude exp(-i)
has nonzero imaginary part, while the float64 array entry is real. -/
theorem recorded_entry_differs_from_amplitude :
    ((recordedRow 4 [(1, pauliZZ)] 10 (basisState 4 0) 1 0 : ℝ) : ℂ) ≠
      evolveState 4 [(1, pauliZZ)] 1 10 (basisState 4 0) 0 := by
  intro h
  have him := congrArg Complex.im h
  rw [Complex.ofReal_im, evolved_amplitude_zz,
    Complex.exp_ofReal_mul_I_im, Real.sin_neg] at him
  have hsin : 0 < Real.sin 1 :=
    Real.sin_pos_of_pos_of_lt_pi one_pos (by linarith [Real.pi_gt_three])
  linarith

/-- Claim C7 (amended): for every time index in the sweep, the entry the
cell-39 loop records holds the real parts of the complex statevector
amplitudes returned by executing the evolution circuit for that time; the
only processing is the cast into the float64 array statevector_of_t, which
drops the imaginary parts. -/
theorem recorded_row_is_real_part_of_amplitudes (d : ℕ)
    (terms : List (ℝ × Matrix (Fin d) (Fin d) ℂ)) (m : ℕ) (v : Fin d → ℂ)
    (evo_t : ℕ) (i : Fin d) :
    recordedRow d terms m v evo_t i =
      (evolveState d terms (evo_t : ℝ) m v i).re :=
  rfl
